import Mathlib

/-!
Shallow embedding of the IPO Alerting System (main.py, src/ipo_checker.py,
src/volatility_checker.py, src/upcoming_ipo_checker.py) and verification of
its specified alert-decision properties.

Strings, optional values and numbers are modelled directly; Python floats are
idealized as rationals; Python exceptions are modelled with Except; Python
truthiness of optionals is modelled explicitly.
-/

/-- Python truthiness of an optional string: `None` and the empty string are falsy. -/
def truthyS : Option String → Bool
  | none => false
  | some s => s ≠ ""

/-- Python truthiness of an optional number: `None` and `0` are falsy. -/
def truthyQ : Option ℚ → Bool
  | none => false
  | some q => q ≠ 0

/-- Python `a or b` on optional strings (first truthy value wins). -/
def pyOrS (a b : Option String) : Option String :=
  if truthyS a then a else b

/-- Round to the nearest integer, ties to even (Python `round`, idealized over ℚ). -/
def roundHalfEven (q : ℚ) : ℤ :=
  let f : ℤ := ⌊q⌋
  let frac : ℚ := q - f
  if frac < 1/2 then f
  else if 1/2 < frac then f + 1
  else if f % 2 = 0 then f else f + 1

/-- Python `round(x, 2)`, idealized over ℚ. -/
def round2 (q : ℚ) : ℚ := (roundHalfEven (q * 100) : ℚ) / 100

/-- `IPOStatus` enumeration from src/ipo_checker.py. -/
inductive IPOStatus where
  | NOT_FOUND
  | UPCOMING
  | SUBSCRIPTION_OPEN
  | SUBSCRIPTION_CLOSED
  | ALLOTMENT_PENDING
  | ALLOTMENT_DONE
  | LISTED
  | TRADING
deriving DecidableEq, Repr

/-- The wire string of each status (the Python enum `.value`). -/
def IPOStatus.value : IPOStatus → String
  | .NOT_FOUND => "not_found"
  | .UPCOMING => "upcoming"
  | .SUBSCRIPTION_OPEN => "subscription_open"
  | .SUBSCRIPTION_CLOSED => "subscription_closed"
  | .ALLOTMENT_PENDING => "allotment_pending"
  | .ALLOTMENT_DONE => "allotment_done"
  | .LISTED => "listed"
  | .TRADING => "trading"

/-- `IPOInfo` dataclass from src/ipo_checker.py. -/
structure IPOInfo where
  symbol : String
  status : IPOStatus
  company_name : Option String := none
  exchange : Option String := none
  listing_date : Option String := none
  price : Option String := none
  details : Option String := none
deriving DecidableEq, Repr

/-- The tuple `alert_statuses` inside `should_send_ipo_alert` (main.py). -/
def alert_statuses : List IPOStatus :=
  [.SUBSCRIPTION_OPEN, .ALLOTMENT_DONE, .LISTED, .TRADING]

/-- `should_send_ipo_alert` from main.py.  `previous_status` is
`previous_state.get("status")`: `none` when the symbol has no prior state
entry (or the entry lacks a status). -/
def should_send_ipo_alert (current_info : IPOInfo) (previous_status : Option String) : Bool :=
  if previous_status = some current_info.status.value then false
  else alert_statuses.contains current_info.status

/-- One persisted IPO state entry (the dict written by `check_ipo_symbol`). -/
structure IPOStateEntry where
  status : String
  company_name : Option String := none
  exchange : Option String := none
  price : Option String := none
deriving DecidableEq, Repr

/-- `check_ipo_symbol` from main.py as a pure state transformer: given the
classification result for `symbol` it returns whether an alert is sent and the
updated state map.  The state entry is overwritten unconditionally at the end,
exactly as in the source. -/
def check_ipo_symbol (ipo_info : IPOInfo) (states : String → Option IPOStateEntry)
    (symbol : String) : Bool × (String → Option IPOStateEntry) :=
  let previous_state := states symbol
  let previous_status : Option String := previous_state.map (·.status)
  let alert := should_send_ipo_alert ipo_info previous_status
  (alert, fun s =>
    if s = symbol then
      some { status := ipo_info.status.value
             company_name := ipo_info.company_name
             exchange := ipo_info.exchange
             price := ipo_info.price }
    else states s)

/-- A source result is definite when the source answered (no exception, which
the source methods turn into `None`) and the answer is not `NOT_FOUND`. -/
def definiteResult : Option IPOInfo → Bool
  | none => false
  | some info => info.status ≠ IPOStatus.NOT_FOUND

/-- The sequential source cascade of `IPOChecker.check_status`: the first
definite result wins. -/
def firstDefinite : List (Option IPOInfo) → Option IPOInfo
  | [] => none
  | r :: rs =>
    match r with
    | some info =>
      if info.status ≠ IPOStatus.NOT_FOUND then some info else firstDefinite rs
    | none => firstDefinite rs

/-- `IPOChecker.check_status` from src/ipo_checker.py, with the three source
calls (`_check_yahoo_finance`, `_check_nasdaq_ipo_calendar`,
`_check_marketwatch`) passed in as their results (`none` models a caught
exception). -/
def IPOChecker.check_status (symbol : String)
    (yahoo nasdaq marketwatch : Option IPOInfo) : IPOInfo :=
  match firstDefinite [yahoo, nasdaq, marketwatch] with
  | some info => info
  | none => { symbol := symbol, status := IPOStatus.NOT_FOUND }

/-- `MovementType` enumeration from src/volatility_checker.py. -/
inductive MovementType where
  | NONE
  | RALLY
  | DROP
deriving DecidableEq, Repr

/-- `VOLATILITY_THRESHOLD_PERCENT` constant from src/volatility_checker.py. -/
def VOLATILITY_THRESHOLD_PERCENT : ℚ := 5

/-- `VolatilityInfo` dataclass from src/volatility_checker.py. -/
structure VolatilityInfo where
  symbol : String
  current_price : Option ℚ := none
  previous_price : Option ℚ := none
  change_percent : Option ℚ := none
  movement : MovementType := .NONE
  company_name : Option String := none
  currency : String := "USD"
  error : Option String := none
deriving DecidableEq, Repr

/-- `VolatilityInfo.has_significant_movement`. -/
def VolatilityInfo.has_significant_movement (v : VolatilityInfo) : Bool :=
  [MovementType.RALLY, MovementType.DROP].contains v.movement

/-- Python `str.upper()` (structural definition so that concrete evaluation
reduces in the kernel). -/
def pyUpper (s : String) : String := ⟨s.data.map Char.toUpper⟩

/-- The meta object of the Yahoo chart API response that
`_get_current_price` reads. -/
structure ChartMeta where
  symbol : String := ""
  regularMarketPrice : Option ℚ := none
  shortName : Option String := none
  longName : Option String := none
  currency : Option String := none
deriving DecidableEq, Repr

/-- The observable fields of the fetched HTTP response: `bodyParses` is
whether `response.json()` succeeds, `chartResult` is `data.chart.result`,
`errorDescription` is `data.chart.error.description` when present. -/
structure FetchResponse where
  status_code : Nat := 200
  bodyParses : Bool := true
  chartResult : Option (List ChartMeta) := none
  errorDescription : Option String := none
deriving DecidableEq, Repr

/-- The fall-through error return at the end of `_get_current_price` (the
second `response.json()` attempt and the final default). -/
def fetchFallbackError (sym : String) (r : FetchResponse) : VolatilityInfo :=
  if r.bodyParses then
    { symbol := sym, error := some (r.errorDescription.getD "Unknown error") }
  else
    { symbol := sym, error := some "Failed to fetch price data" }

/-- `VolatilityChecker._get_current_price`, with the HTTP call passed in as
its observable result: `none` models a raised `requests.RequestException`
(message abstracted as "RequestException"), which the source catches and
turns into an error-carrying `VolatilityInfo`. -/
def VolatilityChecker.get_current_price (sym : String) (resp : Option FetchResponse) :
    VolatilityInfo :=
  match resp with
  | none => { symbol := sym, error := some "RequestException" }
  | some r =>
    if r.status_code = 200 ∧ r.bodyParses = false then
      { symbol := sym, error := some "RequestException" }
    else if r.status_code = 200 then
      match r.chartResult with
      | some (meta :: _) =>
        let msym := pyUpper meta.symbol
        if msym ≠ sym then
          { symbol := sym
            error := some ("Symbol mismatch: expected " ++ sym ++ ", got " ++ msym) }
        else if truthyQ meta.regularMarketPrice then
          { symbol := sym
            current_price := meta.regularMarketPrice
            company_name := pyOrS meta.shortName meta.longName
            currency := meta.currency.getD "USD" }
        else fetchFallbackError sym r
      | _ => fetchFallbackError sym r
    else fetchFallbackError sym r

/-- `VolatilityChecker.check_volatility`: fetch the current price and compare
with `previous_price`.  The unguarded Python float division is modelled with
`Except`: a zero divisor raises `ZeroDivisionError`. -/
def VolatilityChecker.check_volatility (sym : String) (resp : Option FetchResponse)
    (previous_price : Option ℚ) : Except String VolatilityInfo :=
  let price_info := VolatilityChecker.get_current_price sym resp
  if truthyS price_info.error then Except.ok price_info
  else
    match previous_price, price_info.current_price with
    | none, _ => Except.ok price_info
    | _, none => Except.ok price_info
    | some prev, some curr =>
      if prev = 0 then Except.error "ZeroDivisionError"
      else
        let change := curr - prev
        let change_percent := change / prev * 100
        let withChange :=
          { price_info with
              previous_price := some prev
              change_percent := some (round2 change_percent) }
        if change_percent ≥ VOLATILITY_THRESHOLD_PERCENT then
          Except.ok { withChange with movement := MovementType.RALLY }
        else if change_percent ≤ -VOLATILITY_THRESHOLD_PERCENT then
          Except.ok { withChange with movement := MovementType.DROP }
        else Except.ok withChange

/-- Module-level `check_volatility` convenience function (the constructor
uppercases the symbol). -/
def check_volatility (symbol : String) (resp : Option FetchResponse)
    (previous_price : Option ℚ) : Except String VolatilityInfo :=
  VolatilityChecker.check_volatility (pyUpper symbol) resp previous_price

/-- One persisted volatility state entry (the dict written by
`check_volatility_symbol`). -/
structure VolStateEntry where
  price : ℚ
  company_name : Option String := none
  currency : String := "USD"
deriving DecidableEq, Repr

/-- `check_volatility_symbol` from main.py as a pure state transformer:
returns whether an alert is sent and the updated state map; a division-by-zero
crash propagates. -/
def check_volatility_symbol (symbol : String) (resp : Option FetchResponse)
    (states : String → Option VolStateEntry) :
    Except String (Bool × (String → Option VolStateEntry)) :=
  let previous_price := (states symbol).map (·.price)
  match check_volatility symbol resp previous_price with
  | Except.error e => Except.error e
  | Except.ok vol_info =>
    if truthyS vol_info.error then Except.ok (false, states)
    else
      let alerted := vol_info.has_significant_movement
      let states1 :=
        if truthyQ vol_info.current_price then
          fun s =>
            if s = symbol then
              some { price := vol_info.current_price.getD 0
                     company_name := vol_info.company_name
                     currency := vol_info.currency }
            else states s
        else states
      Except.ok (alerted, states1)

/-- A canonical successful chart response carrying one price. -/
def chartResp (sym : String) (price : ℚ) : FetchResponse :=
  { chartResult := some [{ symbol := sym, regularMarketPrice := some price }] }

/-- The `VolatilityInfo` produced for symbol XYZ from a clean fetch of price
`c` against previous price `p` with movement `m` (used to state evaluation
results). -/
def volOut (c p : ℚ) (m : MovementType) : VolatilityInfo :=
  { symbol := "XYZ"
    current_price := some c
    previous_price := some p
    change_percent := some (round2 ((c - p) / p * 100))
    movement := m }

/-- A Gregorian calendar date (Python `datetime.date`). -/
structure PyDate where
  year : Nat
  month : Nat
  day : Nat
deriving DecidableEq, Repr

/-- Gregorian leap-year rule (as in Python `calendar`/`datetime`). -/
def isLeapYear (y : Nat) : Bool :=
  (y % 4 == 0 && y % 100 != 0) || y % 400 == 0

/-- Days in a month of a given year. -/
def daysInMonth (y m : Nat) : Nat :=
  if m = 2 then (if isLeapYear y then 29 else 28)
  else if m = 4 ∨ m = 6 ∨ m = 9 ∨ m = 11 then 30
  else 31

/-- Number of leap years in 1..y. -/
def leapsBefore (y : Nat) : Nat := y / 4 - y / 100 + y / 400

/-- Days in the months of year `y` strictly before month `m`. -/
def cumDaysBefore (y m : Nat) : Nat :=
  (List.range (m - 1)).foldl (fun a i => a + daysInMonth y (i + 1)) 0

/-- Python `date.toordinal()`: day count with 0001-01-01 as day 1; date
subtraction `(d1 - d2).days` is the difference of ordinals. -/
def PyDate.toOrdinal (d : PyDate) : Nat :=
  365 * (d.year - 1) + leapsBefore (d.year - 1) + cumDaysBefore d.year d.month + d.day

/-- Value of a list of decimal digit characters. -/
def digitsVal (cs : List Char) : Nat :=
  cs.foldl (fun a c => a * 10 + (c.toNat - 48)) 0

/-- All characters are decimal digits. -/
def allDigits (cs : List Char) : Bool := cs.all (·.isDigit)

/-- Split a character list on a separator (used to model `strptime` matching
of the numeric date formats: each format is separator-delimited digit
fields). -/
def splitOnSep (sep : Char) : List Char → List (List Char)
  | [] => [[]]
  | c :: rest =>
    let r := splitOnSep sep rest
    if c = sep then [] :: r
    else
      match r with
      | t :: ts => (c :: t) :: ts
      | [] => [[c]]

/-- `strptime` field `%Y`: exactly four digits. -/
def matchY (t : List Char) : Option Nat :=
  if t.length = 4 ∧ allDigits t = true then some (digitsVal t) else none

/-- `strptime` field `%m`: one or two digits with value 1..12. -/
def matchM (t : List Char) : Option Nat :=
  if (t.length = 1 ∨ t.length = 2) ∧ allDigits t = true ∧
      1 ≤ digitsVal t ∧ digitsVal t ≤ 12 then
    some (digitsVal t)
  else none

/-- `strptime` field `%d`: one or two digits with value 1..31. -/
def matchD (t : List Char) : Option Nat :=
  if (t.length = 1 ∨ t.length = 2) ∧ allDigits t = true ∧
      1 ≤ digitsVal t ∧ digitsVal t ≤ 31 then
    some (digitsVal t)
  else none

/-- `strptime` field `%y`: exactly two digits; 00-68 map to 2000-2068 and
69-99 to 1969-1999 (CPython century rule). -/
def matchYY (t : List Char) : Option Nat :=
  if t.length = 2 ∧ allDigits t = true then
    some (if digitsVal t ≤ 68 then 2000 + digitsVal t else 1900 + digitsVal t)
  else none

/-- `datetime` construction: year 1..9999 and a calendar-valid month/day,
otherwise `ValueError` (modelled as `none`, which `strptime` callers treat as
a failed parse). -/
def mkPyDate (y m d : Nat) : Option PyDate :=
  if 1 ≤ y ∧ y ≤ 9999 ∧ 1 ≤ m ∧ m ≤ 12 ∧ 1 ≤ d ∧ d ≤ daysInMonth y m then
    some { year := y, month := m, day := d }
  else none

/-- `datetime.strptime(s, "%Y-%m-%d")`. -/
def strptimeIsoDash (s : String) : Option PyDate :=
  match splitOnSep '-' s.data with
  | [ty, tm, td] =>
    match matchY ty, matchM tm, matchD td with
    | some y, some m, some d => mkPyDate y m d
    | _, _, _ => none
  | _ => none

/-- `datetime.strptime(s, "%m/%d/%Y")`. -/
def strptimeUsSlash (s : String) : Option PyDate :=
  match splitOnSep '/' s.data with
  | [tm, td, ty] =>
    match matchM tm, matchD td, matchY ty with
    | some m, some d, some y => mkPyDate y m d
    | _, _, _ => none
  | _ => none

/-- `datetime.strptime(s, "%m/%d/%y")`. -/
def strptimeUsShortSlash (s : String) : Option PyDate :=
  match splitOnSep '/' s.data with
  | [tm, td, ty] =>
    match matchM tm, matchD td, matchYY ty with
    | some m, some d, some y => mkPyDate y m d
    | _, _, _ => none
  | _ => none

/-- `datetime.strptime(s, "%Y/%m/%d")`. -/
def strptimeIsoSlash (s : String) : Option PyDate :=
  match splitOnSep '/' s.data with
  | [ty, tm, td] =>
    match matchY ty, matchM tm, matchD td with
    | some y, some m, some d => mkPyDate y m d
    | _, _, _ => none
  | _ => none

/-- The date-parsing cascade of `_check_single_ipo`: `%Y-%m-%d` first, then
`%m/%d/%Y`, `%m/%d/%y`, `%Y/%m/%d`; the first success wins, all failing
leaves the date absent. -/
def parse_expected_date (s : String) : Option PyDate :=
  match strptimeIsoDash s with
  | some d => some d
  | none =>
    match strptimeUsSlash s with
    | some d => some d
    | none =>
      match strptimeUsShortSlash s with
      | some d => some d
      | none => strptimeIsoSlash s

/-- The character of a decimal digit. -/
def digitChar (n : Nat) : Char := Char.ofNat (48 + n)

/-- Zero-padded decimal rendering, `w` digits wide. -/
def padDigits : Nat → Nat → List Char
  | 0, _ => []
  | w + 1, n => padDigits w (n / 10) ++ [digitChar (n % 10)]

/-- A date string in the format `YYYY-MM-DD` (also `strftime("%Y-%m-%d")`). -/
def renderIsoDash (y m d : Nat) : String :=
  { data := padDigits 4 y ++ '-' :: (padDigits 2 m ++ '-' :: padDigits 2 d) }

/-- A date string in the format `MM/DD/YYYY`. -/
def renderUsSlash (m d y : Nat) : String :=
  { data := padDigits 2 m ++ '/' :: (padDigits 2 d ++ '/' :: padDigits 4 y) }

/-- A date string in the format `MM/DD/YY`. -/
def renderUsShortSlash (m d yy : Nat) : String :=
  { data := padDigits 2 m ++ '/' :: (padDigits 2 d ++ '/' :: padDigits 2 yy) }

/-- A date string in the format `YYYY/MM/DD`. -/
def renderIsoSlash (y m d : Nat) : String :=
  { data := padDigits 4 y ++ '/' :: (padDigits 2 m ++ '/' :: padDigits 2 d) }

/-- `ALERT_DAYS_BEFORE` constant (src/upcoming_ipo_checker.py and
src/config.py, both 2). -/
def ALERT_DAYS_BEFORE : Int := 2

/-- `UpcomingIPOEntry` from src/config.py (one watchlist line). -/
structure UpcomingIPOEntry where
  symbol : String
  expected_date : Option String := none
  company_name : Option String := none
  price_range : Option String := none
deriving DecidableEq, Repr

/-- One entry of the dict built by `_fetch_nasdaq_calendar`. -/
structure NasdaqCalendarInfo where
  company_name : Option String := none
  expected_date : Option String := none
  exchange : Option String := none
  price_range : Option String := none
  shares : Option String := none
deriving DecidableEq, Repr

/-- `UpcomingIPO` dataclass from src/upcoming_ipo_checker.py. -/
structure UpcomingIPO where
  symbol : String
  company_name : Option String := none
  expected_date : Option PyDate := none
  exchange : Option String := none
  price_range : Option String := none
  shares : Option String := none
  days_until_ipo : Option Int := none
  should_alert : Bool := false
  source : String := "manual"
deriving DecidableEq, Repr

/-- `UpcomingIPO.format_date`: `strftime("%Y-%m-%d")` or "TBD". -/
def UpcomingIPO.format_date (ipo : UpcomingIPO) : String :=
  match ipo.expected_date with
  | some d => renderIsoDash d.year d.month d.day
  | none => "TBD"

/-- The metadata-gathering prefix of `_check_single_ipo`: manual watchlist
fields first, NASDAQ calendar data to supplement missing info, and the
resolution of the date string (manual date wins over the NASDAQ date). -/
def gather_ipo_metadata (entry : UpcomingIPOEntry)
    (nasdaq_data : String → Option NasdaqCalendarInfo) :
    UpcomingIPO × Option String :=
  let ipo0 : UpcomingIPO := { symbol := entry.symbol }
  let date_str0 := entry.expected_date
  let ipo1 := if truthyS entry.company_name = true then
      { ipo0 with company_name := entry.company_name, source := "manual" }
    else ipo0
  let ipo2 := if truthyS entry.price_range = true then
      { ipo1 with price_range := entry.price_range }
    else ipo1
  match nasdaq_data entry.symbol with
  | none => (ipo2, date_str0)
  | some ni =>
    let a1 := if truthyS ipo2.company_name = false then
        { ipo2 with company_name := ni.company_name }
      else ipo2
    let a2 := { a1 with exchange := some (ni.exchange.getD "NASDAQ") }
    let a3 := if truthyS a2.price_range = false then
        { a2 with price_range := ni.price_range }
      else a2
    let a4 := { a3 with shares := ni.shares }
    let a5 := if truthyS entry.company_name = false ∧
        truthyS entry.price_range = false then
        { a4 with source := "NASDAQ" }
      else a4
    let ds := if truthyS date_str0 = false ∧ truthyS ni.expected_date = true then
        ni.expected_date
      else date_str0
    (a5, ds)

/-- The date-parsing step of `_check_single_ipo`: parse the resolved date
string if truthy; a failed parse leaves `expected_date` unset. -/
def parse_date_step (u : UpcomingIPO) (date_str : Option String) : UpcomingIPO :=
  match date_str with
  | none => u
  | some s =>
    if s = "" then u
    else
      match parse_expected_date s with
      | some d => { u with expected_date := some d }
      | none => u

/-- The final block of `_check_single_ipo`: when an expected date is known,
compute `days_until_ipo` and set `should_alert` iff it lies in
`[0, ALERT_DAYS_BEFORE]`. -/
def apply_date_window (u : UpcomingIPO) (today : PyDate) : UpcomingIPO :=
  match u.expected_date with
  | none => u
  | some d =>
    let du : Int := (d.toOrdinal : Int) - (today.toOrdinal : Int)
    { u with
        days_until_ipo := some du
        should_alert := decide (0 ≤ du ∧ du ≤ ALERT_DAYS_BEFORE) }

/-- `UpcomingIPOChecker._check_single_ipo`. -/
def check_single_ipo (entry : UpcomingIPOEntry)
    (nasdaq_data : String → Option NasdaqCalendarInfo) (today : PyDate) :
    UpcomingIPO :=
  let md := gather_ipo_metadata entry nasdaq_data
  apply_date_window (parse_date_step md.1 md.2) today

/-- One persisted upcoming-IPO state entry (the dicts written by
`process_upcoming_ipos`; the no-alert cold-start entry has no
`last_alert_date` key). -/
structure UpState where
  last_alert_date : Option String := none
  expected_date : String
  company_name : Option String := none
deriving DecidableEq, Repr

/-- The per-record body of the loop in `process_upcoming_ipos` (main.py):
returns whether a notification was delivered (`sendOk` is the notifier's
success) and the updated state map. -/
def process_one_upcoming (ipo : UpcomingIPO) (today : String) (sendOk : Bool)
    (states : String → Option UpState) : Bool × (String → Option UpState) :=
  let last_alert_date := (states ipo.symbol).bind (·.last_alert_date)
  if ipo.should_alert = true ∧ last_alert_date ≠ some today then
    if sendOk then
      (true, fun s =>
        if s = ipo.symbol then
          some { last_alert_date := some today
                 expected_date := ipo.format_date
                 company_name := ipo.company_name }
        else states s)
    else (false, states)
  else if ipo.should_alert = true then
    (false, states)
  else
    if (states ipo.symbol).isNone then
      (false, fun s =>
        if s = ipo.symbol then
          some { expected_date := ipo.format_date
                 company_name := ipo.company_name }
        else states s)
    else (false, states)

/-- A sequence of upcoming-IPO checks within one calendar day, each with its
notifier outcome, threaded through the state map; returns the number of
delivered notifications and the final state. -/
def run_day (today : String) :
    List (UpcomingIPO × Bool) → (String → Option UpState) →
    Nat × (String → Option UpState)
  | [], states => (0, states)
  | (ipo, ok) :: rest, states =>
    let r := process_one_upcoming ipo today ok states
    let rr := run_day today rest r.2
    ((if r.1 then 1 else 0) + rr.1, rr.2)

/-- The `should_alert` formula claimed by the spec (including the same-day
deduplication term), for comparison with the field the code computes. -/
def shouldAlertSpec (du : Option Int) (last_alert_date : Option String)
    (today : String) : Bool :=
  (match du with
   | some n => decide (0 ≤ n ∧ n ≤ ALERT_DAYS_BEFORE)
   | none => false) && decide (last_alert_date ≠ some today)

/-- C1 helper: membership in `alert_statuses` is the four-way disjunction. -/
theorem mem_alert_statuses (st : IPOStatus) :
    alert_statuses.contains st = true ↔
      (st = .SUBSCRIPTION_OPEN ∨ st = .ALLOTMENT_DONE ∨ st = .LISTED ∨ st = .TRADING) := by
  cases st <;> simp [alert_statuses]

/-- C1: with a prior state entry carrying status string `prev`, an IPO alert
fires iff `prev` differs from the wire string of the current status and the
current status is alert-worthy; equal consecutive statuses never fire, and a
second run on an unchanged classification fires nothing. -/
theorem ipo_alert_fires_iff (info : IPOInfo) (prev : String) :
    (should_send_ipo_alert info (some prev) = true ↔
      (prev ≠ info.status.value ∧ alert_statuses.contains info.status = true)) ∧
    should_send_ipo_alert info (some info.status.value) = false ∧
    (∀ states symbol,
      (check_ipo_symbol info (check_ipo_symbol info states symbol).2 symbol).1 = false) := by
  refine ⟨?_, ?_, ?_⟩
  · unfold should_send_ipo_alert
    by_cases h : prev = info.status.value
    · simp [h]
    · simp [h]
  · simp [should_send_ipo_alert]
  · intro states symbol
    simp [check_ipo_symbol, should_send_ipo_alert]

/-- C6: a first-ever observation (no prior state entry) landing directly on an
alert-worthy status fires an alert, and the state entry is then recorded with
that status's wire string (and the observed metadata). -/
theorem ipo_cold_start_alert (info : IPOInfo) (states : String → Option IPOStateEntry)
    (symbol : String) (h1 : states symbol = none)
    (h2 : alert_statuses.contains info.status = true) :
    (check_ipo_symbol info states symbol).1 = true ∧
    (check_ipo_symbol info states symbol).2 symbol =
      some { status := info.status.value
             company_name := info.company_name
             exchange := info.exchange
             price := info.price } := by
  constructor
  · simp [check_ipo_symbol, h1, should_send_ipo_alert]
    simpa using h2
  · simp [check_ipo_symbol]

/-- C6 witness: symbol ABCD, first-ever check returns TRADING, previous state
absent: one alert fires and the state is recorded with status "trading". -/
theorem ipo_cold_start_alert_witness :
    (check_ipo_symbol { symbol := "ABCD", status := .TRADING } (fun _ => none) "ABCD").1 = true ∧
    (check_ipo_symbol { symbol := "ABCD", status := .TRADING } (fun _ => none) "ABCD").2 "ABCD" =
      some { status := "trading" } :=
  ipo_cold_start_alert { symbol := "ABCD", status := .TRADING } (fun _ => none) "ABCD"
    rfl (by decide)

/-- C8: the classifier consults Yahoo, then NASDAQ, then MarketWatch; the
first definite (non-`NOT_FOUND`, non-error) result is returned and the
lower-priority results cannot influence it; when every source errors or
reports not-found, the result is the `NOT_FOUND` default (total, no
exception). -/
theorem classifier_first_definite (symbol : String)
    (yahoo nasdaq marketwatch : Option IPOInfo) :
    (∀ i, yahoo = some i → i.status ≠ IPOStatus.NOT_FOUND →
      IPOChecker.check_status symbol yahoo nasdaq marketwatch = i ∧
      ∀ n' m', IPOChecker.check_status symbol yahoo n' m' = i) ∧
    (definiteResult yahoo = false →
      ∀ i, nasdaq = some i → i.status ≠ IPOStatus.NOT_FOUND →
      IPOChecker.check_status symbol yahoo nasdaq marketwatch = i ∧
      ∀ m', IPOChecker.check_status symbol yahoo nasdaq m' = i) ∧
    (definiteResult yahoo = false → definiteResult nasdaq = false →
      ∀ i, marketwatch = some i → i.status ≠ IPOStatus.NOT_FOUND →
      IPOChecker.check_status symbol yahoo nasdaq marketwatch = i) ∧
    (definiteResult yahoo = false → definiteResult nasdaq = false →
      definiteResult marketwatch = false →
      IPOChecker.check_status symbol yahoo nasdaq marketwatch =
        { symbol := symbol, status := IPOStatus.NOT_FOUND }) := by
  refine ⟨?_, ?_, ?_, ?_⟩
  · rintro i rfl hne
    constructor
    · simp [IPOChecker.check_status, firstDefinite, hne]
    · intro n' m'
      simp [IPOChecker.check_status, firstDefinite, hne]
  · intro hy i hn hne
    subst hn
    rcases yahoo with _ | yi
    · constructor
      · simp [IPOChecker.check_status, firstDefinite, hne]
      · intro m'
        simp [IPOChecker.check_status, firstDefinite, hne]
    · simp [definiteResult] at hy
      constructor
      · simp [IPOChecker.check_status, firstDefinite, hy, hne]
      · intro m'
        simp [IPOChecker.check_status, firstDefinite, hy, hne]
  · intro hy hn i hm hne
    subst hm
    rcases yahoo with _ | yi <;> rcases nasdaq with _ | ni
    · simp [IPOChecker.check_status, firstDefinite, hne]
    · simp [definiteResult] at hn
      simp [IPOChecker.check_status, firstDefinite, hn, hne]
    · simp [definiteResult] at hy
      simp [IPOChecker.check_status, firstDefinite, hy, hne]
    · simp [definiteResult] at hy hn
      simp [IPOChecker.check_status, firstDefinite, hy, hn, hne]
  · intro hy hn hm
    rcases yahoo with _ | yi <;> rcases nasdaq with _ | ni <;>
      rcases marketwatch with _ | mi <;>
      simp [definiteResult] at hy hn hm <;>
      simp [IPOChecker.check_status, firstDefinite, *]

/-- C8 witness: Yahoo reports TRADING, so the classifier returns it outright. -/
theorem classifier_first_definite_witness :
    IPOChecker.check_status "ABCD" (some { symbol := "ABCD", status := .TRADING }) none none =
      { symbol := "ABCD", status := .TRADING } :=
  ((classifier_first_definite "ABCD" (some { symbol := "ABCD", status := .TRADING }) none none).1
    { symbol := "ABCD", status := .TRADING } rfl (by decide)).1

/-- Helper: a truthy optional price is a present nonzero price. -/
theorem truthyQ_iff (o : Option ℚ) :
    truthyQ o = true ↔ ∃ p, o = some p ∧ p ≠ 0 := by
  rcases o with _ | q <;> simp [truthyQ]

/-- C2: when the volatility evaluator reports an error (fetch failure), the
alert decision step sends no alert and leaves the whole state map unchanged
for that run. -/
theorem vol_error_leaves_state_untouched (sym : String) (resp : Option FetchResponse)
    (states : String → Option VolStateEntry) (v : VolatilityInfo)
    (h1 : check_volatility sym resp ((states sym).map (·.price)) = Except.ok v)
    (h2 : truthyS v.error = true) :
    check_volatility_symbol sym resp states = Except.ok (false, states) := by
  simp only [check_volatility_symbol]
  rw [h1]
  simp [h2]

/-- C2 witness: a network failure on XYZ leaves the existing good state entry
(price 100) untouched and sends nothing. -/
theorem vol_error_leaves_state_untouched_witness :
    check_volatility_symbol "XYZ" none
        (fun s => if s = "XYZ" then some { price := 100 } else none) =
      Except.ok (false, fun s => if s = "XYZ" then some { price := 100 } else none) :=
  vol_error_leaves_state_untouched "XYZ" none
    (fun s => if s = "XYZ" then some { price := 100 } else none)
    { symbol := "XYZ", error := some "RequestException" } (by rfl) (by decide)

/-- C4: the division by zero is NOT guarded: a call to the volatility
evaluator with previous price 0 and a successfully fetched current price
raises `ZeroDivisionError` instead of producing an error/absent result. -/
theorem vol_zero_previous_price_crashes :
    check_volatility "XYZ" (some (chartResp "XYZ" 100)) (some 0) =
      Except.error "ZeroDivisionError" := by
  rfl

/-- Helper: evaluating the fetch on a canonical successful chart response. -/
theorem get_current_price_chartResp (curr : ℚ) (hc : curr ≠ 0) :
    VolatilityChecker.get_current_price "XYZ" (some (chartResp "XYZ" curr)) =
      { symbol := "XYZ", current_price := some curr } := by
  have hup : pyUpper "XYZ" = "XYZ" := by decide
  simp [VolatilityChecker.get_current_price, chartResp, hup, truthyQ, hc, pyOrS, truthyS]

/-- C5 (amended): with both prices present and the previous price nonzero,
the evaluator stores `change_percent` as the raw ratio rounded to 2 decimal
places, but decides the movement on the UNROUNDED ratio: RALLY iff raw >= 5,
DROP iff raw <= -5, else NONE; at the boundary +5.00 fires RALLY, +4.99
nothing, -5.00 DROP. -/
theorem vol_movement_thresholds (curr prev : ℚ) (hc : curr ≠ 0) (hp : prev ≠ 0) :
    ((check_volatility "XYZ" (some (chartResp "XYZ" curr)) (some prev)).map
        (fun v => (v.current_price, v.previous_price, v.change_percent)) =
      Except.ok (some curr, some prev, some (round2 ((curr - prev) / prev * 100)))) ∧
    ((check_volatility "XYZ" (some (chartResp "XYZ" curr)) (some prev)).map
        (·.movement) = Except.ok MovementType.RALLY ↔
      (curr - prev) / prev * 100 ≥ VOLATILITY_THRESHOLD_PERCENT) ∧
    ((check_volatility "XYZ" (some (chartResp "XYZ" curr)) (some prev)).map
        (·.movement) = Except.ok MovementType.DROP ↔
      (curr - prev) / prev * 100 ≤ -VOLATILITY_THRESHOLD_PERCENT) ∧
    ((check_volatility "XYZ" (some (chartResp "XYZ" curr)) (some prev)).map
        (·.movement) = Except.ok MovementType.NONE ↔
      (-VOLATILITY_THRESHOLD_PERCENT < (curr - prev) / prev * 100 ∧
        (curr - prev) / prev * 100 < VOLATILITY_THRESHOLD_PERCENT)) ∧
    ((check_volatility "XYZ" (some (chartResp "XYZ" 105)) (some 100)).map
        (fun v => (v.change_percent, v.movement)) =
      Except.ok (some 5, MovementType.RALLY)) ∧
    ((check_volatility "XYZ" (some (chartResp "XYZ" (10499/100))) (some 100)).map
        (fun v => (v.change_percent, v.movement)) =
      Except.ok (some (499/100), MovementType.NONE)) ∧
    ((check_volatility "XYZ" (some (chartResp "XYZ" 95)) (some 100)).map
        (fun v => (v.change_percent, v.movement)) =
      Except.ok (some (-5), MovementType.DROP)) := by
  have hup : pyUpper "XYZ" = "XYZ" := by decide
  have hmain : ∀ c p : ℚ, c ≠ 0 → p ≠ 0 →
      check_volatility "XYZ" (some (chartResp "XYZ" c)) (some p) =
        (if (c - p) / p * 100 ≥ VOLATILITY_THRESHOLD_PERCENT then
          Except.ok (volOut c p MovementType.RALLY)
        else if (c - p) / p * 100 ≤ -VOLATILITY_THRESHOLD_PERCENT then
          Except.ok (volOut c p MovementType.DROP)
        else
          Except.ok (volOut c p MovementType.NONE)) := by
    intro c p hc' hp'
    rw [check_volatility, hup]
    simp only [VolatilityChecker.check_volatility, get_current_price_chartResp c hc']
    simp [truthyS, hp', volOut]
  have ht : VOLATILITY_THRESHOLD_PERCENT = 5 := rfl
  refine ⟨?_, ?_, ?_, ?_, ?_, ?_, ?_⟩
  · rw [hmain curr prev hc hp]
    by_cases h1 : (curr - prev) / prev * 100 ≥ VOLATILITY_THRESHOLD_PERCENT
    · rw [if_pos h1]
      simp [Except.map, volOut]
    · rw [if_neg h1]
      by_cases h2 : (curr - prev) / prev * 100 ≤ -VOLATILITY_THRESHOLD_PERCENT
      · rw [if_pos h2]
        simp [Except.map, volOut]
      · rw [if_neg h2]
        simp [Except.map, volOut]
  · rw [hmain curr prev hc hp]
    by_cases h1 : (curr - prev) / prev * 100 ≥ VOLATILITY_THRESHOLD_PERCENT
    · rw [if_pos h1]
      simp [Except.map, volOut, h1]
    · rw [if_neg h1]
      by_cases h2 : (curr - prev) / prev * 100 ≤ -VOLATILITY_THRESHOLD_PERCENT
      · rw [if_pos h2]
        simp [Except.map, volOut, h1]
      · rw [if_neg h2]
        simp [Except.map, volOut, h1]
  · rw [hmain curr prev hc hp]
    by_cases h1 : (curr - prev) / prev * 100 ≥ VOLATILITY_THRESHOLD_PERCENT
    · rw [if_pos h1]
      have hno : ¬((curr - prev) / prev * 100 ≤ -VOLATILITY_THRESHOLD_PERCENT) := by
        rw [ht] at h1 ⊢
        intro hcon
        linarith
      simp [Except.map, volOut, hno]
    · rw [if_neg h1]
      by_cases h2 : (curr - prev) / prev * 100 ≤ -VOLATILITY_THRESHOLD_PERCENT
      · rw [if_pos h2]
        simp [Except.map, volOut, h2]
      · rw [if_neg h2]
        simp [Except.map, volOut, h2]
  · rw [hmain curr prev hc hp]
    by_cases h1 : (curr - prev) / prev * 100 ≥ VOLATILITY_THRESHOLD_PERCENT
    · rw [if_pos h1]
      have hno : ¬(-VOLATILITY_THRESHOLD_PERCENT < (curr - prev) / prev * 100 ∧
          (curr - prev) / prev * 100 < VOLATILITY_THRESHOLD_PERCENT) := by
        rw [ht] at h1 ⊢
        rintro ⟨-, hcon⟩
        linarith
      simp [Except.map, volOut, hno]
    · rw [if_neg h1]
      by_cases h2 : (curr - prev) / prev * 100 ≤ -VOLATILITY_THRESHOLD_PERCENT
      · rw [if_pos h2]
        have hno : ¬(-VOLATILITY_THRESHOLD_PERCENT < (curr - prev) / prev * 100 ∧
            (curr - prev) / prev * 100 < VOLATILITY_THRESHOLD_PERCENT) := by
          rw [ht] at h2 ⊢
          rintro ⟨hcon, -⟩
          linarith
        simp [Except.map, volOut, hno]
      · rw [if_neg h2]
        rw [ht] at h1 h2 ⊢
        push_neg at h1 h2
        simp [Except.map, volOut]
        exact ⟨h2, h1⟩
  · rw [hmain 105 100 (by norm_num) (by norm_num)]
    rw [if_pos (by rw [ht]; norm_num)]
    simp only [Except.map, volOut]
    norm_num [round2, roundHalfEven]
  · rw [hmain (10499/100) 100 (by norm_num) (by norm_num)]
    rw [if_neg (by rw [ht]; norm_num), if_neg (by rw [ht]; norm_num)]
    simp only [Except.map, volOut]
    norm_num [round2, roundHalfEven]
  · rw [hmain 95 100 (by norm_num) (by norm_num)]
    rw [if_neg (by rw [ht]; norm_num), if_pos (by rw [ht]; norm_num)]
    simp only [Except.map, volOut]
    norm_num [round2, roundHalfEven]

/-- C5 witness: previous price 100, current price 106: change is +6.00 and
movement RALLY. -/
theorem vol_movement_thresholds_witness :
    (check_volatility "XYZ" (some (chartResp "XYZ" 106)) (some 100)).map
        (·.movement) = Except.ok MovementType.RALLY := by
  have h := (vol_movement_thresholds 106 100 (by norm_num) (by norm_num)).2.1
  rw [h]
  rw [show VOLATILITY_THRESHOLD_PERCENT = 5 from rfl]
  norm_num

/-- C5 counterexample: previous price 1000, current price 1049.96: the raw
change is 4.996 percent, the STORED `change_percent` rounds to 5.00 which
meets the threshold, yet the movement is NONE because the code compares the
unrounded value; so "movement = RALLY iff change_percent >= threshold" is
false for the stored (rounded) `change_percent`. -/
theorem vol_rounded_threshold_counterexample :
    ((check_volatility "XYZ" (some (chartResp "XYZ" (104996/100))) (some 1000)).map
        (fun v => (v.change_percent, v.movement)) =
      Except.ok (some 5, MovementType.NONE)) ∧
    VOLATILITY_THRESHOLD_PERCENT ≤ 5 := by
  have hup : pyUpper "XYZ" = "XYZ" := by decide
  constructor
  · rw [check_volatility, hup]
    simp only [VolatilityChecker.check_volatility,
      get_current_price_chartResp (104996/100) (by norm_num)]
    rw [if_neg (by simp [truthyS])]
    rw [if_neg (by norm_num)]
    rw [if_neg (by rw [show VOLATILITY_THRESHOLD_PERCENT = 5 from rfl]; norm_num)]
    rw [if_neg (by rw [show VOLATILITY_THRESHOLD_PERCENT = 5 from rfl]; norm_num)]
    simp only [Except.map]
    norm_num [round2, roundHalfEven]
  · rw [show VOLATILITY_THRESHOLD_PERCENT = 5 from rfl]

/-- C10: the fetcher treats a zero or absent price as an error (an error-free
fetch result always carries a truthy, i.e. nonzero, current price), and the
volatility state entry is written only from such a fetched price, so every
price stored in the volatility state map by a run is nonzero. -/
theorem vol_stored_prices_nonzero :
    (∀ sym resp, (VolatilityChecker.get_current_price sym resp).error = none →
      truthyQ (VolatilityChecker.get_current_price sym resp).current_price = true) ∧
    (∀ sym resp states out,
      check_volatility_symbol sym resp states = Except.ok out →
      ∀ s e, out.2 s = some e → states s = some e ∨ e.price ≠ 0) := by
  constructor
  · intro sym resp
    rcases resp with _ | r
    · simp [VolatilityChecker.get_current_price]
    · simp only [VolatilityChecker.get_current_price]
      split_ifs with c1 c2
      · simp
      · split
        · split_ifs with d1 d2
          · simp
          · intro _
            simpa using d2
          · unfold fetchFallbackError
            split_ifs <;> simp
        · unfold fetchFallbackError
          split_ifs <;> simp
      · unfold fetchFallbackError
        split_ifs <;> simp
  · intro sym resp states out
    simp only [check_volatility_symbol]
    split
    · intro h
      simp at h
    · rename_i v hv
      intro h s e he
      by_cases herr : truthyS v.error = true
      · rw [if_pos herr] at h
        injection h with h'
        subst h'
        left
        exact he
      · rw [if_neg herr] at h
        injection h with h'
        subst h'
        simp only at he
        by_cases hq : truthyQ v.current_price = true
        · rw [if_pos hq] at he
          by_cases hs : s = sym
          · rw [if_pos hs] at he
            right
            rcases (truthyQ_iff v.current_price).mp hq with ⟨p, hp1, hp2⟩
            injection he with he'
            rw [← he']
            simpa [hp1] using hp2
          · rw [if_neg hs] at he
            left
            exact he
        · rw [if_neg hq] at he
          left
          exact he

/-- C10 witness: a clean fetch of price 100 for a fresh symbol stores a
nonzero price. -/
theorem vol_stored_prices_nonzero_witness :
    ((fun _ => none : String → Option VolStateEntry) "XYZ" =
        some { price := 100 } ∨ ({ price := 100 } : VolStateEntry).price ≠ 0) :=
  vol_stored_prices_nonzero.2 "XYZ" (some (chartResp "XYZ" 100)) (fun _ => none)
    (false, fun s => if s = "XYZ" then some { price := 100 } else none) (by rfl)
    "XYZ" { price := 100 } (by simp)

/-- Helper: the metadata-gathering prefix never touches the computed fields. -/
theorem gather_defaults (entry : UpcomingIPOEntry)
    (nd : String → Option NasdaqCalendarInfo) :
    (gather_ipo_metadata entry nd).1.expected_date = none ∧
    (gather_ipo_metadata entry nd).1.days_until_ipo = none ∧
    (gather_ipo_metadata entry nd).1.should_alert = false := by
  rcases hnd : nd entry.symbol with _ | ni <;>
    simp only [gather_ipo_metadata, hnd] <;>
    split_ifs <;> simp

/-- Helper: the date-parsing step never touches `days_until_ipo` or
`should_alert`. -/
theorem parse_date_step_fields (u : UpcomingIPO) (ds : Option String) :
    (parse_date_step u ds).days_until_ipo = u.days_until_ipo ∧
    (parse_date_step u ds).should_alert = u.should_alert := by
  rcases ds with _ | s
  · exact ⟨rfl, rfl⟩
  · simp only [parse_date_step]
    split_ifs
    · exact ⟨rfl, rfl⟩
    · rcases hp : parse_expected_date s with _ | d <;> simp

/-- Helper: on an input with untouched computed fields, the date-window step
sets `should_alert` iff the computed `days_until_ipo` is in the window. -/
theorem apply_date_window_iff (u : UpcomingIPO) (today : PyDate)
    (h1 : u.days_until_ipo = none) (h2 : u.should_alert = false) :
    ((apply_date_window u today).should_alert = true ↔
      ∃ du, (apply_date_window u today).days_until_ipo = some du ∧
        0 ≤ du ∧ du ≤ ALERT_DAYS_BEFORE) := by
  rcases hu : u.expected_date with _ | d
  · simp [apply_date_window, hu, h1, h2]
  · simp [apply_date_window, hu]

/-- C3 (amended): the `should_alert` FIELD computed by the evaluator is true
iff `days_until_ipo` is known and `0 <= days_until_ipo <= ALERT_DAYS_BEFORE`;
the same-day deduplication (`last_alert_date != today`) is NOT part of the
field but is enforced at alert time in `process_upcoming_ipos`: a
notification is attempted (and, with a successful send, delivered) iff
`should_alert` holds and no alert was recorded today. -/
theorem upcoming_should_alert_semantics :
    (∀ entry nd today,
      ((check_single_ipo entry nd today).should_alert = true ↔
        ∃ du, (check_single_ipo entry nd today).days_until_ipo = some du ∧
          0 ≤ du ∧ du ≤ ALERT_DAYS_BEFORE)) ∧
    (∀ ipo today sendOk states,
      (process_one_upcoming ipo today sendOk states).1 = true →
      ipo.should_alert = true ∧
      (states ipo.symbol).bind (·.last_alert_date) ≠ some today) ∧
    (∀ ipo today states,
      ipo.should_alert = true →
      (states ipo.symbol).bind (·.last_alert_date) ≠ some today →
      (process_one_upcoming ipo today true states).1 = true) := by
  refine ⟨?_, ?_, ?_⟩
  · intro entry nd today
    have hg := gather_defaults entry nd
    have hp := parse_date_step_fields (gather_ipo_metadata entry nd).1
      (gather_ipo_metadata entry nd).2
    exact apply_date_window_iff _ today (hp.1.trans hg.2.1) (hp.2.trans hg.2.2)
  · intro ipo today sendOk states h
    simp only [process_one_upcoming] at h
    split_ifs at h with c1 c2 c3 <;> simp_all
  · intro ipo today states h1 h2
    simp only [process_one_upcoming]
    rw [if_pos ⟨h1, h2⟩]
    rfl

/-- C3 witness: an in-window record with no alert recorded today delivers. -/
theorem upcoming_should_alert_semantics_witness :
    (process_one_upcoming { symbol := "NEWCO", should_alert := true }
        "2026-10-12" true (fun _ => none)).1 = true :=
  upcoming_should_alert_semantics.2.2 { symbol := "NEWCO", should_alert := true }
    "2026-10-12" (fun _ => none) rfl (by simp)

/-- C3 counterexample: a record whose IPO is today (`days_until = 0`) gets
`should_alert = true` from the evaluator even when `last_alert_date` already
equals today, while the claimed formula (which includes the deduplication
term) is false there. -/
theorem upcoming_should_alert_counterexample :
    (check_single_ipo { symbol := "NEWCO", expected_date := some "2026-10-12" }
        (fun _ => none) { year := 2026, month := 10, day := 12 }).should_alert = true ∧
    shouldAlertSpec
        (check_single_ipo { symbol := "NEWCO", expected_date := some "2026-10-12" }
          (fun _ => none) { year := 2026, month := 10, day := 12 }).days_until_ipo
        (some "2026-10-12") "2026-10-12" = false := by
  constructor
  · rfl
  · rfl

/-- Helper: when `last_alert_date` already equals today, a check delivers
nothing and leaves the state map unchanged. -/
theorem process_suppressed (ipo : UpcomingIPO) (today : String) (ok : Bool)
    (states : String → Option UpState)
    (h : (states ipo.symbol).bind (·.last_alert_date) = some today) :
    process_one_upcoming ipo today ok states = (false, states) := by
  simp only [process_one_upcoming]
  rw [if_neg]
  · split_ifs with c2 c3
    · rfl
    · exfalso
      rcases hs : states ipo.symbol with _ | e
      · rw [hs] at h
        simp at h
      · rw [hs] at c3
        simp at c3
    · rfl
  · rintro ⟨-, hne⟩
    exact hne h

/-- Helper: a delivered notification records today as `last_alert_date`. -/
theorem process_delivered_sets_date (ipo : UpcomingIPO) (today : String)
    (ok : Bool) (states : String → Option UpState)
    (h : (process_one_upcoming ipo today ok states).1 = true) :
    ((process_one_upcoming ipo today ok states).2 ipo.symbol).bind
      (·.last_alert_date) = some today := by
  simp only [process_one_upcoming] at h ⊢
  split_ifs at h ⊢ with c1 c2 c3 <;> simp_all

/-- Helper: once today's alert is recorded, a whole day of further checks on
the symbol delivers nothing. -/
theorem run_day_zero_after (today sym : String)
    (checks : List (UpcomingIPO × Bool))
    (hsym : ∀ c ∈ checks, (Prod.fst c).symbol = sym) :
    ∀ states : String → Option UpState,
      (states sym).bind (·.last_alert_date) = some today →
      (run_day today checks states).1 = 0 := by
  induction checks with
  | nil =>
    intro states h
    rfl
  | cons c rest ih =>
    intro states h
    obtain ⟨ipo, ok⟩ := c
    have hs : ipo.symbol = sym := hsym (ipo, ok) (by simp)
    have hp := process_suppressed ipo today ok states (by rw [hs]; exact h)
    have hrest := ih (fun c hc => hsym c (by simp [hc])) states h
    simp only [run_day, hp]
    simp [hrest]

/-- Helper: over any one-day sequence of checks of one symbol, at most one
notification is delivered. -/
theorem run_day_le_one (today sym : String)
    (checks : List (UpcomingIPO × Bool))
    (hsym : ∀ c ∈ checks, (Prod.fst c).symbol = sym) :
    ∀ states : String → Option UpState, (run_day today checks states).1 ≤ 1 := by
  induction checks with
  | nil =>
    intro states
    simp [run_day]
  | cons c rest ih =>
    intro states
    obtain ⟨ipo, ok⟩ := c
    have hs : ipo.symbol = sym := hsym (ipo, ok) (by simp)
    have hrest : ∀ c ∈ rest, (Prod.fst c).symbol = sym :=
      fun c hc => hsym c (by simp [hc])
    by_cases hd : (process_one_upcoming ipo today ok states).1 = true
    · have hdate := process_delivered_sets_date ipo today ok states hd
      rw [hs] at hdate
      have hz := run_day_zero_after today sym rest hrest
        (process_one_upcoming ipo today ok states).2 hdate
      simp [run_day, hd, hz]
    · have hd' : (process_one_upcoming ipo today ok states).1 = false := by
        simpa using hd
      have := ih hrest (process_one_upcoming ipo today ok states).2
      simp only [run_day, hd']
      simpa using this

/-- C9: for one symbol and one calendar day, at most one upcoming-IPO
notification is delivered across any number of checks; a delivered alert
records `last_alert_date = today`, and a check that finds `last_alert_date =
today` is suppressed. -/
theorem upcoming_once_per_day :
    (∀ (today sym : String) (checks : List (UpcomingIPO × Bool))
        (states : String → Option UpState),
      (∀ c ∈ checks, (Prod.fst c).symbol = sym) →
      (run_day today checks states).1 ≤ 1) ∧
    (∀ ipo today ok states,
      (process_one_upcoming ipo today ok states).1 = true →
      ((process_one_upcoming ipo today ok states).2 ipo.symbol).bind
        (·.last_alert_date) = some today) ∧
    (∀ ipo today ok states,
      (states ipo.symbol).bind (·.last_alert_date) = some today →
      (process_one_upcoming ipo today ok states).1 = false) := by
  refine ⟨?_, ?_, ?_⟩
  · intro today sym checks states hsym
    exact run_day_le_one today sym checks hsym states
  · exact process_delivered_sets_date
  · intro ipo today ok states h
    rw [process_suppressed ipo today ok states h]

/-- C9 witness: two same-day in-window checks of NEWCO with a succeeding
notifier deliver at most one notification. -/
theorem upcoming_once_per_day_witness :
    (run_day "2026-10-12"
        [({ symbol := "NEWCO", should_alert := true }, true),
         ({ symbol := "NEWCO", should_alert := true }, true)]
        (fun _ => none)).1 ≤ 1 :=
  upcoming_once_per_day.1 "2026-10-12" "NEWCO"
    [({ symbol := "NEWCO", should_alert := true }, true),
     ({ symbol := "NEWCO", should_alert := true }, true)]
    (fun _ => none) (by simp)

/-- Digit characters are digits. -/
theorem digitChar_isDigit (k : Nat) (hk : k < 10) : (digitChar k).isDigit = true := by
  interval_cases k <;> decide

/-- Value of a digit character. -/
theorem digitChar_toNat (k : Nat) (hk : k < 10) : (digitChar k).toNat = 48 + k := by
  interval_cases k <;> decide

/-- A padded rendering has exactly the requested width. -/
theorem padDigits_length (w n : Nat) : (padDigits w n).length = w := by
  induction w generalizing n with
  | zero => rfl
  | succ w ih => simp [padDigits, ih]

/-- A padded rendering consists of digit characters. -/
theorem padDigits_allDigits (w n : Nat) : allDigits (padDigits w n) = true := by
  induction w generalizing n with
  | zero => rfl
  | succ w ih =>
    simp only [padDigits, allDigits, List.all_append, List.all_cons, List.all_nil,
      Bool.and_true, Bool.and_eq_true]
    refine ⟨?_, ?_⟩
    · have := ih (n / 10)
      simpa [allDigits] using this
    · exact digitChar_isDigit (n % 10) (Nat.mod_lt n (by norm_num))

/-- Appending one digit multiplies the value by ten. -/
theorem digitsVal_append_one (cs : List Char) (c : Char) :
    digitsVal (cs ++ [c]) = 10 * digitsVal cs + (c.toNat - 48) := by
  simp [digitsVal, List.foldl_append]
  ring

/-- A padded rendering parses back to its value. -/
theorem digitsVal_padDigits (w n : Nat) (h : n < 10 ^ w) :
    digitsVal (padDigits w n) = n := by
  induction w generalizing n with
  | zero =>
    have hn : n = 0 := by
      have := h
      simp at this
      omega
    simp [hn, digitsVal, padDigits]
  | succ w ih =>
    have hdiv : n / 10 < 10 ^ w := by
      rw [Nat.div_lt_iff_lt_mul (by norm_num)]
      calc n < 10 ^ (w + 1) := h
        _ = 10 ^ w * 10 := by ring
    rw [padDigits, digitsVal_append_one, ih (n / 10) hdiv,
      digitChar_toNat (n % 10) (Nat.mod_lt n (by norm_num))]
    omega

/-- Digit lists contain no non-digit separator character. -/
theorem allDigits_ne_sep (cs : List Char) (h : allDigits cs = true) (sep : Char)
    (hsep : sep.isDigit = false) : ∀ c ∈ cs, c ≠ sep := by
  intro c hc
  rintro rfl
  simp only [allDigits, List.all_eq_true] at h
  have := h c hc
  rw [hsep] at this
  exact absurd this (by simp)

/-- `splitOnSep` never returns the empty list of tokens. -/
theorem splitOnSep_ne_nil (sep : Char) (l : List Char) : splitOnSep sep l ≠ [] := by
  induction l with
  | nil => simp [splitOnSep]
  | cons c rest ih =>
    simp only [splitOnSep]
    split_ifs
    · simp
    · rcases h : splitOnSep sep rest with _ | ⟨t, ts⟩
      · exact absurd h ih
      · simp [h]

/-- Splitting at a leading separator emits an empty token. -/
theorem splitOnSep_cons_sep (sep : Char) (l : List Char) :
    splitOnSep sep (sep :: l) = [] :: splitOnSep sep l := by
  simp [splitOnSep]

/-- Splitting after a separator-free prefix prepends it to the first token. -/
theorem splitOnSep_append_nosep (sep : Char) (xs l : List Char)
    (h : ∀ c ∈ xs, c ≠ sep) :
    splitOnSep sep (xs ++ l) =
      (xs ++ (splitOnSep sep l).headI) :: (splitOnSep sep l).tail := by
  induction xs with
  | nil =>
    simp only [List.nil_append]
    rcases hl : splitOnSep sep l with _ | ⟨t, ts⟩
    · exact absurd hl (splitOnSep_ne_nil sep l)
    · simp
  | cons x xs ih =>
    have hx : x ≠ sep := h x (by simp)
    have hxs : ∀ c ∈ xs, c ≠ sep := fun c hc => h c (by simp [hc])
    simp only [List.cons_append, splitOnSep]
    rw [if_neg hx]
    simp only [List.append_eq]
    rw [ih hxs]

/-- A separator-free list is one token. -/
theorem splitOnSep_nosep (sep : Char) (l : List Char) (h : ∀ c ∈ l, c ≠ sep) :
    splitOnSep sep l = [l] := by
  have := splitOnSep_append_nosep sep l [] h
  simpa [splitOnSep] using this

/-- Splitting a three-field separator-delimited list yields the three
fields. -/
theorem splitOnSep_three (sep : Char) (a b c : List Char)
    (ha : ∀ x ∈ a, x ≠ sep) (hb : ∀ x ∈ b, x ≠ sep) (hc : ∀ x ∈ c, x ≠ sep) :
    splitOnSep sep (a ++ sep :: (b ++ sep :: c)) = [a, b, c] := by
  rw [splitOnSep_append_nosep sep a _ ha, splitOnSep_cons_sep,
    splitOnSep_append_nosep sep b _ hb, splitOnSep_cons_sep,
    splitOnSep_nosep sep c hc]
  simp

/-- `%Y` accepts a 4-digit padded year. -/
theorem matchY_pad (y : Nat) (h : y < 10000) : matchY (padDigits 4 y) = some y := by
  have hv : digitsVal (padDigits 4 y) = y := digitsVal_padDigits 4 y (by simpa using h)
  simp [matchY, padDigits_length, padDigits_allDigits, hv]

/-- `%m` accepts a 2-digit padded month. -/
theorem matchM_pad (m : Nat) (h1 : 1 ≤ m) (h2 : m ≤ 12) :
    matchM (padDigits 2 m) = some m := by
  have hv : digitsVal (padDigits 2 m) = m := digitsVal_padDigits 2 m (by omega)
  simp [matchM, padDigits_length, padDigits_allDigits, hv, h1, h2]

/-- `%d` accepts a 2-digit padded day. -/
theorem matchD_pad (d : Nat) (h1 : 1 ≤ d) (h2 : d ≤ 31) :
    matchD (padDigits 2 d) = some d := by
  have hv : digitsVal (padDigits 2 d) = d := digitsVal_padDigits 2 d (by omega)
  simp [matchD, padDigits_length, padDigits_allDigits, hv, h1, h2]

/-- `%y` accepts a 2-digit padded year and applies the century rule. -/
theorem matchYY_pad (yy : Nat) (h : yy ≤ 99) :
    matchYY (padDigits 2 yy) =
      some (if yy ≤ 68 then 2000 + yy else 1900 + yy) := by
  have hv : digitsVal (padDigits 2 yy) = yy := digitsVal_padDigits 2 yy (by omega)
  simp [matchYY, padDigits_length, padDigits_allDigits, hv]

/-- `%Y` rejects tokens that are not 4 characters. -/
theorem matchY_len_ne (t : List Char) (h : t.length ≠ 4) : matchY t = none := by
  simp only [matchY]
  rw [if_neg]
  rintro ⟨h4, -⟩
  exact h h4

/-- `%m` rejects tokens longer than 2 characters. -/
theorem matchM_len_ne (t : List Char) (h : ¬(t.length = 1 ∨ t.length = 2)) :
    matchM t = none := by
  simp only [matchM]
  rw [if_neg]
  rintro ⟨hl, -⟩
  exact h hl

/-- No month has more than 31 days. -/
theorem daysInMonth_le_31 (y m : Nat) : daysInMonth y m ≤ 31 := by
  unfold daysInMonth
  split_ifs <;> norm_num

/-- `datetime` accepts every calendar-valid date in 1..9999. -/
theorem mkPyDate_valid (y m d : Nat) (hy1 : 1 ≤ y) (hy2 : y ≤ 9999)
    (hm1 : 1 ≤ m) (hm2 : m ≤ 12) (hd1 : 1 ≤ d) (hd2 : d ≤ daysInMonth y m) :
    mkPyDate y m d = some { year := y, month := m, day := d } := by
  simp [mkPyDate, hy1, hy2, hm1, hm2, hd1, hd2]

/-- Padded digit fields contain no dash. -/
theorem padDigits_ne_dash (w n : Nat) : ∀ c ∈ padDigits w n, c ≠ '-' :=
  allDigits_ne_sep (padDigits w n) (padDigits_allDigits w n) '-' (by decide)

/-- Padded digit fields contain no slash. -/
theorem padDigits_ne_slash (w n : Nat) : ∀ c ∈ padDigits w n, c ≠ '/' :=
  allDigits_ne_sep (padDigits w n) (padDigits_allDigits w n) '/' (by decide)

/-- Slash-format renderings contain no dash, so `%Y-%m-%d` fails on them. -/
theorem slashRender_ne_dash (a b c : List Char)
    (ha : ∀ x ∈ a, x ≠ '-') (hb : ∀ x ∈ b, x ≠ '-') (hc : ∀ x ∈ c, x ≠ '-') :
    ∀ x ∈ a ++ '/' :: (b ++ '/' :: c), x ≠ '-' := by
  intro x hx
  rcases List.mem_append.mp hx with h1 | h2
  · exact ha x h1
  · rcases h2 with _ | h3
    · decide
    rcases List.mem_append.mp (by assumption) with h4 | h5
    · exact hb x h4
    · rcases h5 with _ | h6
      · decide
      · exact hc x (by assumption)

/-- `%Y-%m-%d` accepts every valid padded ISO dash date. -/
theorem strptimeIsoDash_render (y m d : Nat) (hy1 : 1 ≤ y) (hy2 : y ≤ 9999)
    (hm1 : 1 ≤ m) (hm2 : m ≤ 12) (hd1 : 1 ≤ d) (hd2 : d ≤ daysInMonth y m) :
    strptimeIsoDash (renderIsoDash y m d) =
      some { year := y, month := m, day := d } := by
  have hsplit := splitOnSep_three '-' (padDigits 4 y) (padDigits 2 m) (padDigits 2 d)
    (padDigits_ne_dash 4 y) (padDigits_ne_dash 2 m) (padDigits_ne_dash 2 d)
  simp only [strptimeIsoDash, renderIsoDash, hsplit, matchY_pad y (by omega),
    matchM_pad m hm1 hm2, matchD_pad d hd1 (le_trans hd2 (daysInMonth_le_31 y m))]
  exact mkPyDate_valid y m d hy1 hy2 hm1 hm2 hd1 hd2

/-- `%Y-%m-%d` fails on any dash-free string. -/
theorem strptimeIsoDash_noDash (s : String) (h : ∀ x ∈ s.data, x ≠ '-') :
    strptimeIsoDash s = none := by
  simp only [strptimeIsoDash]
  rw [splitOnSep_nosep '-' s.data h]

/-- `%m/%d/%Y` accepts every valid padded US slash date. -/
theorem strptimeUsSlash_render (y m d : Nat) (hy1 : 1 ≤ y) (hy2 : y ≤ 9999)
    (hm1 : 1 ≤ m) (hm2 : m ≤ 12) (hd1 : 1 ≤ d) (hd2 : d ≤ daysInMonth y m) :
    strptimeUsSlash (renderUsSlash m d y) =
      some { year := y, month := m, day := d } := by
  have hsplit := splitOnSep_three '/' (padDigits 2 m) (padDigits 2 d) (padDigits 4 y)
    (padDigits_ne_slash 2 m) (padDigits_ne_slash 2 d) (padDigits_ne_slash 4 y)
  simp only [strptimeUsSlash, renderUsSlash, hsplit, matchY_pad y (by omega),
    matchM_pad m hm1 hm2, matchD_pad d hd1 (le_trans hd2 (daysInMonth_le_31 y m))]
  exact mkPyDate_valid y m d hy1 hy2 hm1 hm2 hd1 hd2

/-- `%m/%d/%y` accepts every valid padded short-year date, applying the
century rule. -/
theorem strptimeUsShortSlash_render (yy m d : Nat) (hyy : yy ≤ 99)
    (hm1 : 1 ≤ m) (hm2 : m ≤ 12) (hd1 : 1 ≤ d)
    (hd2 : d ≤ daysInMonth (if yy ≤ 68 then 2000 + yy else 1900 + yy) m) :
    strptimeUsShortSlash (renderUsShortSlash m d yy) =
      some { year := if yy ≤ 68 then 2000 + yy else 1900 + yy,
             month := m, day := d } := by
  have hsplit := splitOnSep_three '/' (padDigits 2 m) (padDigits 2 d) (padDigits 2 yy)
    (padDigits_ne_slash 2 m) (padDigits_ne_slash 2 d) (padDigits_ne_slash 2 yy)
  have hd31 : d ≤ 31 :=
    le_trans hd2 (daysInMonth_le_31 (if yy ≤ 68 then 2000 + yy else 1900 + yy) m)
  simp only [strptimeUsShortSlash, renderUsShortSlash, hsplit, matchYY_pad yy hyy,
    matchM_pad m hm1 hm2, matchD_pad d hd1 hd31]
  exact mkPyDate_valid _ m d (by split_ifs <;> omega) (by split_ifs <;> omega)
    hm1 hm2 hd1 hd2

/-- `%Y/%m/%d` accepts every valid padded ISO slash date. -/
theorem strptimeIsoSlash_render (y m d : Nat) (hy1 : 1 ≤ y) (hy2 : y ≤ 9999)
    (hm1 : 1 ≤ m) (hm2 : m ≤ 12) (hd1 : 1 ≤ d) (hd2 : d ≤ daysInMonth y m) :
    strptimeIsoSlash (renderIsoSlash y m d) =
      some { year := y, month := m, day := d } := by
  have hsplit := splitOnSep_three '/' (padDigits 4 y) (padDigits 2 m) (padDigits 2 d)
    (padDigits_ne_slash 4 y) (padDigits_ne_slash 2 m) (padDigits_ne_slash 2 d)
  simp only [strptimeIsoSlash, renderIsoSlash, hsplit, matchY_pad y (by omega),
    matchM_pad m hm1 hm2, matchD_pad d hd1 (le_trans hd2 (daysInMonth_le_31 y m))]
  exact mkPyDate_valid y m d hy1 hy2 hm1 hm2 hd1 hd2

/-- `%m/%d/%Y` fails on a short-year rendering: the year field has only two
digits. -/
theorem strptimeUsSlash_shortRender (yy m d : Nat)
    (hm1 : 1 ≤ m) (hm2 : m ≤ 12) (hd1 : 1 ≤ d) (hd31 : d ≤ 31) :
    strptimeUsSlash (renderUsShortSlash m d yy) = none := by
  have hsplit := splitOnSep_three '/' (padDigits 2 m) (padDigits 2 d) (padDigits 2 yy)
    (padDigits_ne_slash 2 m) (padDigits_ne_slash 2 d) (padDigits_ne_slash 2 yy)
  have hy : matchY (padDigits 2 yy) = none :=
    matchY_len_ne (padDigits 2 yy) (by simp [padDigits_length])
  simp only [strptimeUsSlash, renderUsShortSlash, hsplit, matchM_pad m hm1 hm2,
    matchD_pad d hd1 hd31, hy]

/-- `%m/%d/%Y` fails on an ISO slash rendering: the first field has four
digits, too many for a month. -/
theorem strptimeUsSlash_isoSlashRender (y m d : Nat) :
    strptimeUsSlash (renderIsoSlash y m d) = none := by
  have hsplit := splitOnSep_three '/' (padDigits 4 y) (padDigits 2 m) (padDigits 2 d)
    (padDigits_ne_slash 4 y) (padDigits_ne_slash 2 m) (padDigits_ne_slash 2 d)
  have hm : matchM (padDigits 4 y) = none :=
    matchM_len_ne (padDigits 4 y) (by simp [padDigits_length])
  simp only [strptimeUsSlash, renderIsoSlash, hsplit, hm]

/-- `%m/%d/%y` fails on an ISO slash rendering for the same reason. -/
theorem strptimeUsShortSlash_isoSlashRender (y m d : Nat) :
    strptimeUsShortSlash (renderIsoSlash y m d) = none := by
  have hsplit := splitOnSep_three '/' (padDigits 4 y) (padDigits 2 m) (padDigits 2 d)
    (padDigits_ne_slash 4 y) (padDigits_ne_slash 2 m) (padDigits_ne_slash 2 d)
  have hm : matchM (padDigits 4 y) = none :=
    matchM_len_ne (padDigits 4 y) (by simp [padDigits_length])
  simp only [strptimeUsShortSlash, renderIsoSlash, hsplit, hm]

/-- Helper: with a truthy manual date, the resolved date string is the manual
one (the NASDAQ date never overrides). -/
theorem gather_keeps_truthy_date (entry : UpcomingIPOEntry)
    (nd : String → Option NasdaqCalendarInfo)
    (h : truthyS entry.expected_date = true) :
    (gather_ipo_metadata entry nd).2 = entry.expected_date := by
  rcases hnd : nd entry.symbol with _ | ni <;>
    simp only [gather_ipo_metadata, hnd] <;>
    split_ifs <;> simp_all

/-- Helper: a failed parse leaves the record unchanged. -/
theorem parse_step_failed (u : UpcomingIPO) (s : String) (h1 : s ≠ "")
    (h2 : parse_expected_date s = none) :
    parse_date_step u (some s) = u := by
  simp [parse_date_step, h1, h2]

/-- Helper: without an expected date the window step is the identity. -/
theorem window_no_date (u : UpcomingIPO) (today : PyDate)
    (h : u.expected_date = none) : apply_date_window u today = u := by
  simp [apply_date_window, h]

/-- C7 (amended): date parsing accepts every (zero-padded) date in the four
numeric formats `YYYY-MM-DD`, `MM/DD/YYYY`, `MM/DD/YY` (with the CPython
century rule) and `YYYY/MM/DD`; month-name forms are NOT accepted; and every
unparsable non-empty date string leaves the expected date absent and
`days_until`/`should_alert` unset, with no error raised. -/
theorem upcoming_date_formats (y m d yy : Nat)
    (hy1 : 1 ≤ y) (hy2 : y ≤ 9999) (hm1 : 1 ≤ m) (hm2 : m ≤ 12)
    (hd1 : 1 ≤ d) (hd2 : d ≤ daysInMonth y m) (hyy : yy ≤ 99)
    (hd2s : d ≤ daysInMonth (if yy ≤ 68 then 2000 + yy else 1900 + yy) m) :
    parse_expected_date (renderIsoDash y m d) =
      some { year := y, month := m, day := d } ∧
    parse_expected_date (renderUsSlash m d y) =
      some { year := y, month := m, day := d } ∧
    parse_expected_date (renderUsShortSlash m d yy) =
      some { year := if yy ≤ 68 then 2000 + yy else 1900 + yy,
             month := m, day := d } ∧
    parse_expected_date (renderIsoSlash y m d) =
      some { year := y, month := m, day := d } ∧
    (∀ entry nd today s, entry.expected_date = some s → s ≠ "" →
      parse_expected_date s = none →
      (check_single_ipo entry nd today).expected_date = none ∧
      (check_single_ipo entry nd today).days_until_ipo = none ∧
      (check_single_ipo entry nd today).should_alert = false) := by
  have hd31 : d ≤ 31 := le_trans hd2 (daysInMonth_le_31 y m)
  have hdashUs : strptimeIsoDash (renderUsSlash m d y) = none :=
    strptimeIsoDash_noDash (renderUsSlash m d y)
      (slashRender_ne_dash (padDigits 2 m) (padDigits 2 d) (padDigits 4 y)
        (padDigits_ne_dash 2 m) (padDigits_ne_dash 2 d) (padDigits_ne_dash 4 y))
  have hdashShort : strptimeIsoDash (renderUsShortSlash m d yy) = none :=
    strptimeIsoDash_noDash (renderUsShortSlash m d yy)
      (slashRender_ne_dash (padDigits 2 m) (padDigits 2 d) (padDigits 2 yy)
        (padDigits_ne_dash 2 m) (padDigits_ne_dash 2 d) (padDigits_ne_dash 2 yy))
  have hdashIsoSlash : strptimeIsoDash (renderIsoSlash y m d) = none :=
    strptimeIsoDash_noDash (renderIsoSlash y m d)
      (slashRender_ne_dash (padDigits 4 y) (padDigits 2 m) (padDigits 2 d)
        (padDigits_ne_dash 4 y) (padDigits_ne_dash 2 m) (padDigits_ne_dash 2 d))
  refine ⟨?_, ?_, ?_, ?_, ?_⟩
  · simp only [parse_expected_date,
      strptimeIsoDash_render y m d hy1 hy2 hm1 hm2 hd1 hd2]
  · simp only [parse_expected_date, hdashUs,
      strptimeUsSlash_render y m d hy1 hy2 hm1 hm2 hd1 hd2]
  · simp only [parse_expected_date, hdashShort,
      strptimeUsSlash_shortRender yy m d hm1 hm2 hd1 hd31,
      strptimeUsShortSlash_render yy m d hyy hm1 hm2 hd1 hd2s]
  · simp only [parse_expected_date, hdashIsoSlash,
      strptimeUsSlash_isoSlashRender y m d,
      strptimeUsShortSlash_isoSlashRender y m d,
      strptimeIsoSlash_render y m d hy1 hy2 hm1 hm2 hd1 hd2]
  · intro entry nd today s hes hne hpf
    have ht : truthyS entry.expected_date = true := by
      rw [hes]
      simp [truthyS, hne]
    have hds := gather_keeps_truthy_date entry nd ht
    have hg := gather_defaults entry nd
    have hp : parse_date_step (gather_ipo_metadata entry nd).1
        (gather_ipo_metadata entry nd).2 = (gather_ipo_metadata entry nd).1 := by
      rw [hds, hes]
      exact parse_step_failed _ s hne hpf
    simp only [check_single_ipo]
    rw [hp, window_no_date _ today hg.1]
    exact hg

/-- C7 witness: 2026-01-15 in each of the four formats. -/
theorem upcoming_date_formats_witness :
    parse_expected_date (renderIsoDash 2026 1 15) =
      some { year := 2026, month := 1, day := 15 } ∧
    parse_expected_date (renderUsSlash 1 15 2026) =
      some { year := 2026, month := 1, day := 15 } ∧
    parse_expected_date (renderUsShortSlash 1 15 26) =
      some { year := if 26 ≤ 68 then 2000 + 26 else 1900 + 26,
             month := 1, day := 15 } ∧
    parse_expected_date (renderIsoSlash 2026 1 15) =
      some { year := 2026, month := 1, day := 15 } := by
  have h := upcoming_date_formats 2026 1 15 26 (by norm_num) (by norm_num)
    (by norm_num) (by norm_num) (by norm_num) (by decide) (by norm_num) (by decide)
  exact ⟨h.1, h.2.1, h.2.2.1, h.2.2.2.1⟩

/-- C7 counterexample: the month-name form "Jan 15, 2026" is NOT accepted:
parsing fails and a watchlist entry carrying it ends with no expected date,
no `days_until`, and no alert (rather than an error). -/
theorem upcoming_month_name_rejected :
    parse_expected_date "Jan 15, 2026" = none ∧
    (check_single_ipo { symbol := "NEWCO", expected_date := some "Jan 15, 2026" }
        (fun _ => none) { year := 2026, month := 1, day := 13 }).expected_date = none ∧
    (check_single_ipo { symbol := "NEWCO", expected_date := some "Jan 15, 2026" }
        (fun _ => none) { year := 2026, month := 1, day := 13 }).days_until_ipo = none ∧
    (check_single_ipo { symbol := "NEWCO", expected_date := some "Jan 15, 2026" }
        (fun _ => none) { year := 2026, month := 1, day := 13 }).should_alert = false := by
  refine ⟨rfl, rfl, rfl, rfl⟩
